import Mathlib

/-!
Verification of the delta-v / staging computation of
`src/server/src/utils/krpc_module/rocket_telemetry.py`
(`RocketTelemetry.get_delta_v_status` and the helpers it calls).

Python floats are modelled as real numbers.  The one Python operation in
this code path that can raise is float division, which raises
`ZeroDivisionError` when the divisor is zero; the embedding makes that
explicit by returning `Except Unit _` and erroring exactly where the
Python division `max_thrust / (start_mass * 9.81)` would divide by zero.
All other arithmetic in this code path is total.
-/

namespace LaunchOps

/-- Standard gravity constant `g0 = 9.80665` used by the rocket equation
and the burn-time estimate (spec sections 4.2 and 4.3). -/
noncomputable def g0 : ℝ := 9.80665

/-- One engine record, holding the fields of the mapping built by
`RocketTelemetry.get_all_engines_status` that `get_delta_v_status` reads:
`stage`, `max_thrust` (maximum thrust at current ambient pressure),
`max_vacuum_thrust`, `vacuum_specific_impulse`, `specific_impulse_at`
(specific impulse at current ambient pressure), and the list of
`total_resource_available` amounts of the engine propellants
(rocket_telemetry.py lines 57-81, 221-225). -/
structure EngineStatus where
  stage : Int
  max_thrust : ℝ
  max_vacuum_thrust : ℝ
  vacuum_specific_impulse : ℝ
  specific_impulse_at : ℝ
  propellants : List ℝ

/-- One element of `delta_v_list` (rocket_telemetry.py lines 233-247). -/
structure DeltaVEntry where
  stage : Int
  start_mass : ℝ
  end_mass : ℝ
  burned_mass : ℝ
  max_thrust : ℝ
  twr : ℝ
  slt : ℝ
  isp : ℝ
  atom_delta_v : ℝ
  vac_delta_v : ℝ
  time : ℝ

/-- The mapping returned by `get_delta_v_status`
(rocket_telemetry.py lines 257-263). -/
structure DeltaVReport where
  stage_delta_v_atom : ℝ
  stage_delta_v_vac : ℝ
  total_delta_v_atom : ℝ
  total_delta_v_vac : ℝ
  delta_v_list : List DeltaVEntry

/-- Modelled from the spec: `calculate_delta_v` is defined on `BaseRocket`
(base_rocket.py), which is not among the source files; only its caller is.
Spec section 4.2 gives its contract: if `fuelMass <= 0`, or
`startMass - fuelMass <= 0`, or `isp <= 0`, return `0.0`, otherwise the
rocket equation `isp * g0 * ln (startMass / (startMass - fuelMass))`. -/
noncomputable def calculate_delta_v (isp fuelMass startMass : ℝ) : ℝ :=
  if fuelMass ≤ 0 ∨ startMass - fuelMass ≤ 0 ∨ isp ≤ 0 then 0
  else isp * g0 * Real.log (startMass / (startMass - fuelMass))

/-- Modelled from the spec: `burn_time_estimation` is defined on
`BaseRocket` (base_rocket.py), which is not among the source files; only
its caller is.  Spec section 4.3 gives its contract: if `thrust <= 0` or
`isp <= 0`, return `0.0`, otherwise `fuelMass * isp * g0 / thrust`. -/
noncomputable def burn_time_estimation (isp fuelMass thrust : ℝ) : ℝ :=
  if thrust ≤ 0 ∨ isp ≤ 0 then 0
  else fuelMass * isp * g0 / thrust

/-- The `stages_start_mass` list built at rocket_telemetry.py lines
210-213: entry 0 is `payload_mass + first_stage_mass` (commented as the
first-stage start mass) and entry 1 is
`payload_mass + first_stage_mass + second_stage_mass` (commented as the
second-stage start mass). -/
noncomputable def stages_start_mass
    (payload_mass first_stage_mass second_stage_mass : ℝ) : List ℝ :=
  [payload_mass + first_stage_mass,
    payload_mass + first_stage_mass + second_stage_mass]

/-- The body of the `for i, engine in enumerate(engines)` loop of
`get_delta_v_status` for one engine, given the start mass selected at
line 220 (rocket_telemetry.py lines 221-247).  The Python float divisions
`max_thrust / (start_mass * 9.81)` and `max_vac_thrust / (start_mass * 9.81)`
at lines 226-227 raise `ZeroDivisionError` when `start_mass * 9.81 = 0`,
modelled by `Except.error ()`. -/
noncomputable def engine_delta_v (start_mass : ℝ) (engine : EngineStatus) :
    Except Unit DeltaVEntry :=
  if start_mass * 9.81 = 0 then Except.error ()
  else
    let max_vac_thrust := engine.max_vacuum_thrust
    let max_thrust := engine.max_thrust
    let fuel_mass := engine.propellants.sum
    let vac_isp := engine.vacuum_specific_impulse
    let atom_isp := engine.specific_impulse_at
    let slt := max_thrust / (start_mass * 9.81)
    let twr := max_vac_thrust / (start_mass * 9.81)
    let vac_delta_v := calculate_delta_v vac_isp fuel_mass start_mass
    let atom_delta_v := calculate_delta_v atom_isp fuel_mass start_mass
    let burn_time := burn_time_estimation atom_isp fuel_mass max_thrust
    let end_mass := start_mass - fuel_mass
    Except.ok
      { stage := engine.stage
        start_mass := start_mass
        end_mass := end_mass
        burned_mass := fuel_mass
        max_thrust := max_vac_thrust
        twr := twr
        slt := slt
        isp := atom_isp
        atom_delta_v := atom_delta_v
        vac_delta_v := vac_delta_v
        time := burn_time }

/-- The `for i, engine in enumerate(engines)` loop of `get_delta_v_status`
(rocket_telemetry.py lines 219-247), carrying the enumeration index `i`:
the engine at index `i` is assigned
`stages_start_mass[min(i, len(stages_start_mass) - 1)]` (line 220). -/
noncomputable def build_entries (sms : List ℝ) :
    Nat → List EngineStatus → Except Unit (List DeltaVEntry)
  | _, [] => Except.ok []
  | i, engine :: rest =>
    match engine_delta_v (sms.getD (min i (sms.length - 1)) 0) engine with
    | Except.error u => Except.error u
    | Except.ok entry =>
      match build_entries sms (i + 1) rest with
      | Except.error u => Except.error u
      | Except.ok tail => Except.ok (entry :: tail)

/-- `RocketTelemetry.get_delta_v_status` (rocket_telemetry.py lines
183-263), as a function of the three stage-group masses read at lines
206-208 and of the engine list returned by `get_all_engines_status`.
The totals mirror Python `sum` (a left fold starting from `0`), and the
stage values mirror `delta_v_list[-1][...] if delta_v_list else 0`. -/
noncomputable def get_delta_v_status
    (payload_mass first_stage_mass second_stage_mass : ℝ)
    (engines : List EngineStatus) : Except Unit DeltaVReport :=
  match build_entries
      (stages_start_mass payload_mass first_stage_mass second_stage_mass)
      0 engines with
  | Except.error u => Except.error u
  | Except.ok delta_v_list =>
    Except.ok
      { stage_delta_v_atom :=
          match delta_v_list.getLast? with
          | some entry => entry.atom_delta_v
          | none => 0
        stage_delta_v_vac :=
          match delta_v_list.getLast? with
          | some entry => entry.vac_delta_v
          | none => 0
        total_delta_v_atom :=
          (delta_v_list.map fun entry => entry.atom_delta_v).foldl (· + ·) 0
        total_delta_v_vac :=
          (delta_v_list.map fun entry => entry.vac_delta_v).foldl (· + ·) 0
        delta_v_list := delta_v_list }

/-! ### Helper lemmas -/

theorem engine_delta_v_ok_ne (start_mass : ℝ) (engine : EngineStatus)
    (entry : DeltaVEntry)
    (h : engine_delta_v start_mass engine = Except.ok entry) :
    start_mass * 9.81 ≠ 0 := by
  intro h0
  simp [engine_delta_v, h0] at h

theorem engine_delta_v_ok_fields (start_mass : ℝ) (engine : EngineStatus)
    (entry : DeltaVEntry)
    (h : engine_delta_v start_mass engine = Except.ok entry) :
    entry.stage = engine.stage ∧
    entry.start_mass = start_mass ∧
    entry.end_mass = start_mass - engine.propellants.sum ∧
    entry.burned_mass = engine.propellants.sum ∧
    entry.max_thrust = engine.max_vacuum_thrust ∧
    entry.twr = engine.max_vacuum_thrust / (start_mass * 9.81) ∧
    entry.slt = engine.max_thrust / (start_mass * 9.81) ∧
    entry.isp = engine.specific_impulse_at ∧
    entry.atom_delta_v
      = calculate_delta_v engine.specific_impulse_at engine.propellants.sum
          start_mass ∧
    entry.vac_delta_v
      = calculate_delta_v engine.vacuum_specific_impulse
          engine.propellants.sum start_mass ∧
    entry.time
      = burn_time_estimation engine.specific_impulse_at
          engine.propellants.sum engine.max_thrust := by
  have hne : ¬ start_mass * 9.81 = 0 := engine_delta_v_ok_ne _ _ _ h
  rw [engine_delta_v, if_neg hne] at h
  have h' := (Except.ok.injEq _ _).mp h
  subst h'
  simp

theorem build_entries_length (sms : List ℝ) (engines : List EngineStatus) :
    ∀ k l, build_entries sms k engines = Except.ok l →
      l.length = engines.length := by
  induction engines with
  | nil =>
    intro k l h
    simp [build_entries] at h
    simp [← h]
  | cons engine rest ih =>
    intro k l h
    rw [build_entries] at h
    cases he : engine_delta_v (sms.getD (min k (sms.length - 1)) 0) engine with
    | error u => rw [he] at h; exact absurd h (by simp)
    | ok entry =>
      rw [he] at h
      cases hr : build_entries sms (k + 1) rest with
      | error u => rw [hr] at h; exact absurd h (by simp)
      | ok tail =>
        rw [hr] at h
        have h' := (Except.ok.injEq _ _).mp h
        subst h'
        simp [ih (k + 1) tail hr]

theorem build_entries_get (sms : List ℝ) (engines : List EngineStatus) :
    ∀ k l, build_entries sms k engines = Except.ok l →
      ∀ j (hj : j < engines.length) (hj' : j < l.length),
        engine_delta_v (sms.getD (min (k + j) (sms.length - 1)) 0)
            (engines.get ⟨j, hj⟩)
          = Except.ok (l.get ⟨j, hj'⟩) := by
  induction engines with
  | nil =>
    intro k l _ j hj
    exact absurd hj (by simp)
  | cons engine rest ih =>
    intro k l h j hj hj'
    rw [build_entries] at h
    cases he : engine_delta_v (sms.getD (min k (sms.length - 1)) 0) engine with
    | error u => rw [he] at h; exact absurd h (by simp)
    | ok entry =>
      rw [he] at h
      cases hr : build_entries sms (k + 1) rest with
      | error u => rw [hr] at h; exact absurd h (by simp)
      | ok tail =>
        rw [hr] at h
        have h' := (Except.ok.injEq _ _).mp h
        subst h'
        cases j with
        | zero => simpa using he
        | succ j' =>
          have hj2 : j' < rest.length := by simpa using hj
          have hj2' : j' < tail.length := by simpa using hj'
          have := ih (k + 1) tail hr j' hj2 hj2'
          have harith : k + 1 + j' = k + (j' + 1) := by omega
          rw [harith] at this
          simpa using this

theorem build_entries_mem (sms : List ℝ) (engines : List EngineStatus) :
    ∀ k l, build_entries sms k engines = Except.ok l →
      ∀ entry ∈ l, ∃ sm, ∃ engine ∈ engines,
        engine_delta_v sm engine = Except.ok entry := by
  induction engines with
  | nil =>
    intro k l h entry hm
    simp [build_entries] at h
    subst h
    exact absurd hm (by simp)
  | cons engine rest ih =>
    intro k l h entry hm
    rw [build_entries] at h
    cases he : engine_delta_v (sms.getD (min k (sms.length - 1)) 0) engine with
    | error u => rw [he] at h; exact absurd h (by simp)
    | ok e0 =>
      rw [he] at h
      cases hr : build_entries sms (k + 1) rest with
      | error u => rw [hr] at h; exact absurd h (by simp)
      | ok tail =>
        rw [hr] at h
        have h' := (Except.ok.injEq _ _).mp h
        subst h'
        rcases List.mem_cons.mp hm with h0 | hTail
        · exact ⟨_, engine, by simp, by rw [← h0] at he; exact he⟩
        · rcases ih (k + 1) tail hr entry hTail with ⟨sm, e1, hmem, hok⟩
          exact ⟨sm, e1, by simp [hmem], hok⟩

theorem get_delta_v_status_ok
    (payload_mass first_stage_mass second_stage_mass : ℝ)
    (engines : List EngineStatus) (r : DeltaVReport)
    (h : get_delta_v_status payload_mass first_stage_mass second_stage_mass
          engines = Except.ok r) :
    build_entries
        (stages_start_mass payload_mass first_stage_mass second_stage_mass)
        0 engines = Except.ok r.delta_v_list ∧
    r.total_delta_v_atom
      = (r.delta_v_list.map fun entry => entry.atom_delta_v).foldl (· + ·) 0 ∧
    r.total_delta_v_vac
      = (r.delta_v_list.map fun entry => entry.vac_delta_v).foldl (· + ·) 0 ∧
    r.stage_delta_v_atom
      = (match r.delta_v_list.getLast? with
          | some entry => entry.atom_delta_v
          | none => 0) ∧
    r.stage_delta_v_vac
      = (match r.delta_v_list.getLast? with
          | some entry => entry.vac_delta_v
          | none => 0) := by
  rw [get_delta_v_status] at h
  cases hb : build_entries
      (stages_start_mass payload_mass first_stage_mass second_stage_mass)
      0 engines with
  | error u => rw [hb] at h; exact absurd h (by simp)
  | ok l =>
    rw [hb] at h
    have h' := (Except.ok.injEq _ _).mp h
    subst h'
    exact ⟨by simp [hb], by simp, by simp, by simp, by simp⟩

theorem foldl_add_eq_sum (l : List ℝ) : ∀ a, l.foldl (· + ·) a = a + l.sum := by
  induction l with
  | nil => intro a; simp
  | cons x xs ih =>
    intro a
    simp [List.foldl_cons, ih (a + x), List.sum_cons]
    ring

/-! ### Claims -/

/-- C1, counterexample: the claim says the stage start-mass sequence for a
two-burn-stage vehicle is (payload + first + second, payload + second);
at payload = 1, first-stage mass = 2, second-stage mass = 4 that would be
(7, 5), but `stages_start_mass` (rocket_telemetry.py lines 210-213)
produces (3, 7). -/
theorem stages_start_mass_claim_false :
    stages_start_mass 1 2 4 ≠ [1 + 2 + 4, 1 + 4] := by
  simp only [stages_start_mass, List.cons.injEq, and_true, not_and]
  intro h
  norm_num at h

/-- C1, amended: entry 0 of the computed stage start-mass sequence is the
payload mass plus the first-stage mass only, and entry 1 is the payload
mass plus the first-stage mass plus the second-stage mass — the code sums
from the payload downward through the current stage, not from the current
stage to the top of the stack. -/
theorem stages_start_mass_amended
    (payload_mass first_stage_mass second_stage_mass : ℝ) :
    stages_start_mass payload_mass first_stage_mass second_stage_mass
      = [payload_mass + first_stage_mass,
          payload_mass + first_stage_mass + second_stage_mass] := rfl

/-- C8, counterexample: with payload, first-stage and second-stage masses
all 1, `stages_start_mass` is (2, 3), so the second entry is not strictly
smaller than the first: start mass does not strictly decrease with the
stage index. -/
theorem stages_start_mass_not_decreasing :
    ¬ ((stages_start_mass 1 1 1).getD 1 0 < (stages_start_mass 1 1 1).getD 0 0) := by
  simp only [stages_start_mass, List.getD]
  norm_num

/-- C8, amended: in the constructed stage start-mass sequence, the second
entry exceeds the first by exactly the second-stage mass, so with a
nonnegative second-stage mass the sequence is non-decreasing (and strictly
increasing when the second-stage mass is positive) — the opposite of the
claimed strict decrease. -/
theorem stages_start_mass_monotone
    (payload_mass first_stage_mass second_stage_mass : ℝ) :
    (stages_start_mass payload_mass first_stage_mass second_stage_mass).getD 1 0
      = (stages_start_mass payload_mass first_stage_mass second_stage_mass).getD
          0 0 + second_stage_mass ∧
    (0 ≤ second_stage_mass →
      (stages_start_mass payload_mass first_stage_mass second_stage_mass).getD
          0 0
        ≤ (stages_start_mass payload_mass first_stage_mass
            second_stage_mass).getD 1 0) ∧
    (0 < second_stage_mass →
      (stages_start_mass payload_mass first_stage_mass second_stage_mass).getD
          0 0
        < (stages_start_mass payload_mass first_stage_mass
            second_stage_mass).getD 1 0) := by
  refine ⟨rfl, ?_, ?_⟩ <;> intro h <;> simp [stages_start_mass] <;> linarith

/-- C8, witness for the amended theorem at payload = first = second = 1. -/
theorem stages_start_mass_monotone_witness :
    (stages_start_mass 1 1 1).getD 1 0 = (stages_start_mass 1 1 1).getD 0 0 + 1 ∧
    ((0 : ℝ) ≤ 1 →
      (stages_start_mass 1 1 1).getD 0 0 ≤ (stages_start_mass 1 1 1).getD 1 0) ∧
    ((0 : ℝ) < 1 →
      (stages_start_mass 1 1 1).getD 0 0 < (stages_start_mass 1 1 1).getD 1 0) :=
  stages_start_mass_monotone 1 1 1

/-- C9: for an empty engine list, `get_delta_v_status` succeeds and returns
a report whose stage and total delta-v fields are all 0 and whose
`delta_v_list` is empty, for every choice of the three stage-group masses. -/
theorem get_delta_v_status_empty
    (payload_mass first_stage_mass second_stage_mass : ℝ) :
    get_delta_v_status payload_mass first_stage_mass second_stage_mass []
      = Except.ok
          { stage_delta_v_atom := 0
            stage_delta_v_vac := 0
            total_delta_v_atom := 0
            total_delta_v_vac := 0
            delta_v_list := [] } := rfl

/-- C5: in the entry list built by the engine loop, the entry at position
`j` (0-based, in engine-list order) records the start mass
`sms[min j (sms.length - 1)]` selected at rocket_telemetry.py line 220:
engines beyond the number of known stage start masses are clamped to the
last known start mass. -/
theorem start_mass_clamped (sms : List ℝ) (_hne : sms ≠ [])
    (engines : List EngineStatus) (l : List DeltaVEntry)
    (h : build_entries sms 0 engines = Except.ok l)
    (j : Nat) (hj : j < engines.length) (hj' : j < l.length) :
    (l.get ⟨j, hj'⟩).start_mass = sms.getD (min j (sms.length - 1)) 0 := by
  have hg := build_entries_get sms engines 0 l h j hj hj'
  rw [Nat.zero_add] at hg
  exact (engine_delta_v_ok_fields _ _ _ hg).2.1

/-- C2, counterexample: the claim computes twr and slt with
`g0 = 9.80665`, but the code divides by `start_mass * 9.81`
(rocket_telemetry.py lines 226-227).  With stage-group masses (1, 0, 0)
and one engine whose vacuum and current-pressure maximum thrusts are both
9.81, the emitted twr and slt are exactly 1, while the claimed formula
`maxVacuumThrust / (startMass * 9.80665)` gives `9.81 / 9.80665 ≠ 1`. -/
theorem twr_slt_g0_claim_false :
    get_delta_v_status 1 0 0 [⟨0, 9.81, 9.81, 300, 280, []⟩]
      = Except.ok ⟨0, 0, 0, 0, [⟨0, 1, 1, 0, 9.81, 1, 1, 280, 0, 0, 0⟩]⟩ ∧
    (1 : ℝ) ≠ 9.81 / (1 * 9.80665) := by
  constructor
  · norm_num [get_delta_v_status, build_entries, engine_delta_v,
      stages_start_mass, calculate_delta_v, burn_time_estimation]
  · norm_num

/-- C2, amended: for every engine entry in the report, twr equals the
engine's maximum vacuum thrust divided by `startMass * 9.81` and slt
equals the engine's current-pressure maximum thrust divided by
`startMass * 9.81` — the code hard-codes 9.81 here, not the standard
gravity constant 9.80665 used elsewhere. -/
theorem twr_slt_formula
    (payload_mass first_stage_mass second_stage_mass : ℝ)
    (engines : List EngineStatus) (r : DeltaVReport)
    (h : get_delta_v_status payload_mass first_stage_mass second_stage_mass
          engines = Except.ok r)
    (j : Nat) (hj : j < engines.length) (hj' : j < r.delta_v_list.length) :
    (r.delta_v_list.get ⟨j, hj'⟩).twr
      = (engines.get ⟨j, hj⟩).max_vacuum_thrust
        / ((r.delta_v_list.get ⟨j, hj'⟩).start_mass * 9.81) ∧
    (r.delta_v_list.get ⟨j, hj'⟩).slt
      = (engines.get ⟨j, hj⟩).max_thrust
        / ((r.delta_v_list.get ⟨j, hj'⟩).start_mass * 9.81) := by
  have hb := (get_delta_v_status_ok _ _ _ _ _ h).1
  have hg := build_entries_get _ _ 0 _ hb j hj hj'
  rw [Nat.zero_add] at hg
  have hf := engine_delta_v_ok_fields _ _ _ hg
  rw [hf.2.1]
  exact ⟨hf.2.2.2.2.2.1, hf.2.2.2.2.2.2.1⟩

/-- C10: in every emitted `DeltaVEntry`, the `max_thrust` field holds the
engine's `max_vacuum_thrust` (rocket_telemetry.py line 239), while the
burn-time estimate is fed the engine's current-pressure `max_thrust`
(line 230). -/
theorem entry_max_thrust_is_vacuum
    (payload_mass first_stage_mass second_stage_mass : ℝ)
    (engines : List EngineStatus) (r : DeltaVReport)
    (h : get_delta_v_status payload_mass first_stage_mass second_stage_mass
          engines = Except.ok r)
    (j : Nat) (hj : j < engines.length) (hj' : j < r.delta_v_list.length) :
    (r.delta_v_list.get ⟨j, hj'⟩).max_thrust
      = (engines.get ⟨j, hj⟩).max_vacuum_thrust ∧
    (r.delta_v_list.get ⟨j, hj'⟩).time
      = burn_time_estimation (engines.get ⟨j, hj⟩).specific_impulse_at
          (engines.get ⟨j, hj⟩).propellants.sum
          (engines.get ⟨j, hj⟩).max_thrust := by
  have hb := (get_delta_v_status_ok _ _ _ _ _ h).1
  have hg := build_entries_get _ _ 0 _ hb j hj hj'
  rw [Nat.zero_add] at hg
  have hf := engine_delta_v_ok_fields _ _ _ hg
  exact ⟨hf.2.2.2.2.1, hf.2.2.2.2.2.2.2.2.2.2⟩

/-! ### Concrete demo inputs shared by the witnesses -/

/-- A demo engine whose current-pressure maximum thrust (3) differs from
its vacuum maximum thrust (5); both specific impulses are 0 and it has no
propellant, so every transcendental quantity degenerates to 0. -/
noncomputable def demoEngine : EngineStatus := ⟨0, 3, 5, 0, 0, []⟩

/-- The entry `engine_delta_v` produces for `demoEngine` at start mass
`sm`. -/
noncomputable def demoEntry (sm : ℝ) : DeltaVEntry :=
  ⟨0, sm, sm, 0, 5, 5 / (sm * 9.81), 3 / (sm * 9.81), 0, 0, 0, 0⟩

/-- The report `get_delta_v_status` returns for stage-group masses
(2, 0, 0) and the single engine `demoEngine`. -/
noncomputable def demoReport : DeltaVReport := ⟨0, 0, 0, 0, [demoEntry 2]⟩

theorem demo_engine_delta_v (sm : ℝ) (h : sm ≠ 0) :
    engine_delta_v sm demoEngine = Except.ok (demoEntry sm) := by
  rw [engine_delta_v, if_neg (mul_ne_zero h (by norm_num))]
  simp [demoEngine, demoEntry, calculate_delta_v, burn_time_estimation]

theorem demo_status : get_delta_v_status 2 0 0 [demoEngine]
    = Except.ok demoReport := by
  have h1 : engine_delta_v 2 demoEngine = Except.ok (demoEntry 2) :=
    demo_engine_delta_v 2 (by norm_num)
  rw [get_delta_v_status]
  rw [show stages_start_mass 2 0 0 = [2, 2] by norm_num [stages_start_mass]]
  rw [build_entries]
  norm_num [h1, build_entries, demoReport, demoEntry]

theorem demo_build :
    build_entries [10, 7] 0 [demoEngine, demoEngine, demoEngine]
      = Except.ok [demoEntry 10, demoEntry 7, demoEntry 7] := by
  have h10 : engine_delta_v 10 demoEngine = Except.ok (demoEntry 10) :=
    demo_engine_delta_v 10 (by norm_num)
  have h7 : engine_delta_v 7 demoEngine = Except.ok (demoEntry 7) :=
    demo_engine_delta_v 7 (by norm_num)
  rw [build_entries, build_entries, build_entries, build_entries]
  norm_num [h10, h7]

/-- C5, witness for the clamp rule: with the 2 stage start masses
(10, 7) and 3 copies of `demoEngine`, the entries at indices 1 and 2 both
record start mass `[10, 7].getD (min _ 1) 0 = 7`. -/
theorem start_mass_clamped_witness :
    (([demoEntry 10, demoEntry 7, demoEntry 7].get ⟨1, by norm_num⟩).start_mass
      = ([10, 7] : List ℝ).getD (min 1 (([10, 7] : List ℝ).length - 1)) 0) ∧
    (([demoEntry 10, demoEntry 7, demoEntry 7].get ⟨2, by norm_num⟩).start_mass
      = ([10, 7] : List ℝ).getD (min 2 (([10, 7] : List ℝ).length - 1)) 0) :=
  ⟨start_mass_clamped [10, 7] (by simp) [demoEngine, demoEngine, demoEngine]
      [demoEntry 10, demoEntry 7, demoEntry 7] demo_build 1 (by norm_num)
      (by norm_num),
    start_mass_clamped [10, 7] (by simp) [demoEngine, demoEngine, demoEngine]
      [demoEntry 10, demoEntry 7, demoEntry 7] demo_build 2 (by norm_num)
      (by norm_num)⟩

/-- C2, witness for the amended twr/slt formulas on `demoReport`. -/
theorem twr_slt_formula_witness :
    ((demoReport.delta_v_list.get ⟨0, by simp [demoReport]⟩).twr
      = ([demoEngine].get ⟨0, by simp⟩).max_vacuum_thrust
        / ((demoReport.delta_v_list.get ⟨0, by simp [demoReport]⟩).start_mass
            * 9.81)) ∧
    ((demoReport.delta_v_list.get ⟨0, by simp [demoReport]⟩).slt
      = ([demoEngine].get ⟨0, by simp⟩).max_thrust
        / ((demoReport.delta_v_list.get ⟨0, by simp [demoReport]⟩).start_mass
            * 9.81)) :=
  twr_slt_formula 2 0 0 [demoEngine] demoReport demo_status 0 (by simp)
    (by simp [demoReport])

/-- C10, witness: in `demoReport` the entry's `max_thrust` is the engine's
vacuum thrust 5, not its current-pressure thrust 3, and the burn time was
computed from the current-pressure thrust 3. -/
theorem entry_max_thrust_is_vacuum_witness :
    ((demoReport.delta_v_list.get ⟨0, by simp [demoReport]⟩).max_thrust
      = ([demoEngine].get ⟨0, by simp⟩).max_vacuum_thrust) ∧
    ((demoReport.delta_v_list.get ⟨0, by simp [demoReport]⟩).time
      = burn_time_estimation ([demoEngine].get ⟨0, by simp⟩).specific_impulse_at
          ([demoEngine].get ⟨0, by simp⟩).propellants.sum
          ([demoEngine].get ⟨0, by simp⟩).max_thrust) :=
  entry_max_thrust_is_vacuum 2 0 0 [demoEngine] demoReport demo_status 0
    (by simp) (by simp [demoReport])

/-- C4: for every input on which `get_delta_v_status` succeeds, the
report's `total_delta_v_atom` and `total_delta_v_vac` equal the sums of
`atom_delta_v` and `vac_delta_v` over all entries of `delta_v_list`, and
for a non-empty `delta_v_list` the stage values equal the corresponding
fields of the last entry. -/
theorem report_totals
    (payload_mass first_stage_mass second_stage_mass : ℝ)
    (engines : List EngineStatus) (r : DeltaVReport)
    (h : get_delta_v_status payload_mass first_stage_mass second_stage_mass
          engines = Except.ok r) :
    r.total_delta_v_atom
      = (r.delta_v_list.map fun entry => entry.atom_delta_v).sum ∧
    r.total_delta_v_vac
      = (r.delta_v_list.map fun entry => entry.vac_delta_v).sum ∧
    ∀ entry, r.delta_v_list.getLast? = some entry →
      r.stage_delta_v_atom = entry.atom_delta_v ∧
      r.stage_delta_v_vac = entry.vac_delta_v := by
  obtain ⟨-, hta, htv, hsa, hsv⟩ := get_delta_v_status_ok _ _ _ _ _ h
  refine ⟨?_, ?_, ?_⟩
  · rw [hta, foldl_add_eq_sum, zero_add]
  · rw [htv, foldl_add_eq_sum, zero_add]
  · intro entry hlast
    rw [hsa, hsv, hlast]
    exact ⟨rfl, rfl⟩

/-- C4, witness on `demoReport`: both totals equal the corresponding sums
and the stage values come from the (single, hence last) entry. -/
theorem report_totals_witness :
    (demoReport.total_delta_v_atom
      = (demoReport.delta_v_list.map fun entry => entry.atom_delta_v).sum) ∧
    (demoReport.total_delta_v_vac
      = (demoReport.delta_v_list.map fun entry => entry.vac_delta_v).sum) ∧
    (demoReport.stage_delta_v_atom = (demoEntry 2).atom_delta_v ∧
      demoReport.stage_delta_v_vac = (demoEntry 2).vac_delta_v) := by
  have h := report_totals 2 0 0 [demoEngine] demoReport demo_status
  exact ⟨h.1, h.2.1, h.2.2 (demoEntry 2) (by simp [demoReport])⟩

theorem build_entries_ok_of_ne (sms : List ℝ) (hne : sms ≠ [])
    (hsm : ∀ x ∈ sms, x ≠ 0) (engines : List EngineStatus) :
    ∀ k, ∃ l, build_entries sms k engines = Except.ok l := by
  induction engines with
  | nil => intro k; exact ⟨[], rfl⟩
  | cons engine rest ih =>
    intro k
    obtain ⟨tail, htail⟩ := ih (k + 1)
    have hlen : 0 < sms.length := List.length_pos.mpr hne
    have hidx : min k (sms.length - 1) < sms.length := by omega
    have hmem : sms.getD (min k (sms.length - 1)) 0 ∈ sms := by
      rw [List.getD_eq_getElem sms 0 hidx]
      exact List.getElem_mem hidx
    have hzero : sms.getD (min k (sms.length - 1)) 0 * 9.81 ≠ 0 :=
      mul_ne_zero (hsm _ hmem) (by norm_num)
    cases he : engine_delta_v (sms.getD (min k (sms.length - 1)) 0) engine with
    | error u =>
      rw [engine_delta_v, if_neg hzero] at he
      exact absurd he (by simp)
    | ok entry =>
      exact ⟨entry :: tail, by rw [build_entries, he, htail]⟩

/-- C7, counterexample: a vessel whose satellite-bus and first-stage part
groups have mass 0 is only numerically degenerate (a zero start mass for
the first entry), yet `get_delta_v_status` raises: the Python float
division `max_thrust / (start_mass * 9.81)` at rocket_telemetry.py line
226 divides by zero, so building the report fails instead of resolving the
degenerate fields to 0.0. -/
theorem report_raises_on_zero_start_mass :
    get_delta_v_status 0 0 1 [⟨0, 1, 1, 300, 280, [5]⟩]
      = Except.error () := by
  norm_num [get_delta_v_status, build_entries, engine_delta_v,
    stages_start_mass]

/-- C7, amended: for every input whose two stage start masses
(payload + first and payload + first + second) are nonzero and whose only
other defects are numeric degeneracies (zero or negative thrust, ISP, fuel
mass, or mass deficits), building the report never raises, and each
degenerate case resolves to the sentinel 0.0 for the affected delta-v and
burn-time fields while the rest of the report is computed normally:
a drained or over-full stage (fuel mass at most 0, or a mass deficit)
zeroes both delta-v fields, a non-positive pressure-adjusted ISP zeroes
the atmospheric delta-v and the burn time, a non-positive current-pressure
thrust zeroes the burn time, and a non-positive vacuum ISP zeroes the
vacuum delta-v; when a stage start mass is zero the code instead raises a
division-by-zero error. -/
theorem report_never_raises
    (payload_mass first_stage_mass second_stage_mass : ℝ)
    (engines : List EngineStatus)
    (h0 : payload_mass + first_stage_mass ≠ 0)
    (h1 : payload_mass + first_stage_mass + second_stage_mass ≠ 0) :
    ∃ r, get_delta_v_status payload_mass first_stage_mass second_stage_mass
          engines = Except.ok r ∧
      ∀ j (hj : j < engines.length) (hj' : j < r.delta_v_list.length),
        ((r.delta_v_list.get ⟨j, hj'⟩).burned_mass ≤ 0 →
          (r.delta_v_list.get ⟨j, hj'⟩).atom_delta_v = 0 ∧
          (r.delta_v_list.get ⟨j, hj'⟩).vac_delta_v = 0) ∧
        ((r.delta_v_list.get ⟨j, hj'⟩).start_mass
            - (r.delta_v_list.get ⟨j, hj'⟩).burned_mass ≤ 0 →
          (r.delta_v_list.get ⟨j, hj'⟩).atom_delta_v = 0 ∧
          (r.delta_v_list.get ⟨j, hj'⟩).vac_delta_v = 0) ∧
        ((r.delta_v_list.get ⟨j, hj'⟩).isp ≤ 0 →
          (r.delta_v_list.get ⟨j, hj'⟩).atom_delta_v = 0 ∧
          (r.delta_v_list.get ⟨j, hj'⟩).time = 0) ∧
        ((engines.get ⟨j, hj⟩).max_thrust ≤ 0 →
          (r.delta_v_list.get ⟨j, hj'⟩).time = 0) ∧
        ((engines.get ⟨j, hj⟩).vacuum_specific_impulse ≤ 0 →
          (r.delta_v_list.get ⟨j, hj'⟩).vac_delta_v = 0) := by
  have hsm : ∀ x ∈ stages_start_mass payload_mass first_stage_mass
      second_stage_mass, x ≠ 0 := by
    intro x hx
    simp only [stages_start_mass, List.mem_cons, List.not_mem_nil,
      or_false] at hx
    rcases hx with h | h <;> rw [h] <;> assumption
  obtain ⟨l, hl⟩ := build_entries_ok_of_ne
    (stages_start_mass payload_mass first_stage_mass second_stage_mass)
    (by simp [stages_start_mass]) hsm engines 0
  refine ⟨_, by rw [get_delta_v_status, hl], ?_⟩
  intro j hj hj'
  have hok := build_entries_get _ engines 0 l hl j hj hj'
  rw [Nat.zero_add] at hok
  obtain ⟨-, hstart, -, hburn, -, -, -, hisp, hatom, hvac, htime⟩ :=
    engine_delta_v_ok_fields _ _ _ hok
  refine ⟨?_, ?_, ?_, ?_, ?_⟩
  · intro hfuel
    rw [hburn] at hfuel
    rw [hatom, hvac, calculate_delta_v, calculate_delta_v]
    rw [if_pos (Or.inl hfuel), if_pos (Or.inl hfuel)]
    exact ⟨rfl, rfl⟩
  · intro hdef
    rw [hstart, hburn] at hdef
    rw [hatom, hvac, calculate_delta_v, calculate_delta_v]
    rw [if_pos (Or.inr (Or.inl hdef)), if_pos (Or.inr (Or.inl hdef))]
    exact ⟨rfl, rfl⟩
  · intro hzisp
    rw [hisp] at hzisp
    rw [hatom, calculate_delta_v, if_pos (Or.inr (Or.inr hzisp))]
    rw [htime, burn_time_estimation, if_pos (Or.inr hzisp)]
    exact ⟨rfl, rfl⟩
  · intro hthrust
    rw [htime, burn_time_estimation, if_pos (Or.inl hthrust)]
  · intro hvisp
    rw [hvac, calculate_delta_v, if_pos (Or.inr (Or.inr hvisp))]

/-- C7, witness for the amended theorem: for stage-group masses (1, 0, 0)
and one engine with zero thrust, zero ISP and no propellant, the report is
built without error. -/
theorem report_never_raises_witness :
    get_delta_v_status 1 0 0 [⟨0, 0, 0, 0, 0, []⟩] ≠ Except.error () := by
  obtain ⟨r, hr, -⟩ :=
    report_never_raises 1 0 0 [⟨0, 0, 0, 0, 0, []⟩] (by norm_num)
      (by norm_num)
  rw [hr]
  simp

theorem log_five_fourths_bounds :
    27409 / 122880 ≤ Real.log (5 / 4) ∧
      Real.log (5 / 4) ≤ 27429 / 122880 := by
  have hx : |(-(1 / 4) : ℝ)| < 1 := by
    rw [abs_neg, abs_of_nonneg (by norm_num)]
    norm_num
  have h := Real.abs_log_sub_add_sum_range_le hx 6
  have hsum : (∑ i ∈ Finset.range 6, (-(1 / 4) : ℝ) ^ (i + 1) / (i + 1))
      = -(27419 / 122880) := by
    rw [Finset.sum_range_succ, Finset.sum_range_succ, Finset.sum_range_succ,
      Finset.sum_range_succ, Finset.sum_range_succ, Finset.sum_range_succ,
      Finset.sum_range_zero]
    norm_num
  rw [hsum, show (1 : ℝ) - (-(1 / 4)) = 5 / 4 by norm_num,
    abs_neg, abs_of_nonneg (by norm_num : (0 : ℝ) ≤ 1 / 4),
    show ((1 : ℝ) / 4) ^ (6 + 1) / (1 - 1 / 4) = 1 / 12288 by norm_num,
    abs_le] at h
  constructor <;> linarith [h.1, h.2]

/-- C3: `calculate_delta_v` returns 0 whenever `fuelMass <= 0`,
`startMass - fuelMass <= 0`, or `isp <= 0`, and otherwise computes
`isp * 9.80665 * ln (startMass / (startMass - fuelMass))`; at
(isp 300, fuel 1000, start 5000) the value is within 1 of 657, and at
(isp 300, fuel 5000, start 5000) it is exactly 0. -/
theorem calculate_delta_v_spec (isp fuelMass startMass : ℝ) :
    ((fuelMass ≤ 0 ∨ startMass - fuelMass ≤ 0 ∨ isp ≤ 0) →
      calculate_delta_v isp fuelMass startMass = 0) ∧
    (0 < fuelMass → 0 < startMass - fuelMass → 0 < isp →
      calculate_delta_v isp fuelMass startMass
        = isp * 9.80665 * Real.log (startMass / (startMass - fuelMass))) ∧
    |calculate_delta_v 300 1000 5000 - 657| < 1 ∧
    calculate_delta_v 300 5000 5000 = 0 := by
  refine ⟨fun h => if_pos h, fun h1 h2 h3 => ?_, ?_, ?_⟩
  · rw [calculate_delta_v, if_neg (by push_neg; exact ⟨h1, h2, h3⟩)]
    rfl
  · have hv : calculate_delta_v 300 1000 5000
        = 300 * g0 * Real.log (5 / 4) := by
      rw [calculate_delta_v, if_neg (by push_neg; norm_num)]
      norm_num
    rw [hv, g0, abs_lt]
    have hlog := log_five_fourths_bounds
    constructor <;> nlinarith [hlog.1, hlog.2]
  · rw [calculate_delta_v, if_pos (by norm_num)]

/-- C3, witness: the zero branch at (300, 0, 5000) and the rocket-equation
branch at (2, 3, 5), both obtained from `calculate_delta_v_spec`. -/
theorem calculate_delta_v_spec_witness :
    calculate_delta_v 300 0 5000 = 0 ∧
    calculate_delta_v 2 3 5 = 2 * 9.80665 * Real.log (5 / (5 - 3)) :=
  ⟨(calculate_delta_v_spec 300 0 5000).1 (Or.inl le_rfl),
    (calculate_delta_v_spec 2 3 5).2.1 (by norm_num) (by norm_num)
      (by norm_num)⟩

/-- C6: `burn_time_estimation` returns 0 whenever `thrust <= 0` or
`isp <= 0` (in particular at (isp 300, fuel 1000, thrust 0)), and
otherwise computes `fuelMass * isp * g0 / thrust`. -/
theorem burn_time_estimation_spec (isp fuelMass thrust : ℝ) :
    ((thrust ≤ 0 ∨ isp ≤ 0) → burn_time_estimation isp fuelMass thrust = 0) ∧
    (0 < thrust → 0 < isp →
      burn_time_estimation isp fuelMass thrust
        = fuelMass * isp * 9.80665 / thrust) ∧
    burn_time_estimation 300 1000 0 = 0 := by
  refine ⟨fun h => if_pos h, fun h1 h2 => ?_, ?_⟩
  · rw [burn_time_estimation, if_neg (by push_neg; exact ⟨h1, h2⟩), g0]
  · rw [burn_time_estimation, if_pos (Or.inl le_rfl)]

/-- C6, witness: the zero branch at (300, 1000, 0) and the mass-flow
formula at (2, 3, 4), both obtained from `burn_time_estimation_spec`. -/
theorem burn_time_estimation_spec_witness :
    burn_time_estimation 300 1000 0 = 0 ∧
    burn_time_estimation 2 3 4 = 3 * 2 * 9.80665 / 4 :=
  ⟨(burn_time_estimation_spec 300 1000 0).1 (Or.inl le_rfl),
    (burn_time_estimation_spec 2 3 4).2.1 (by norm_num) (by norm_num)⟩

end LaunchOps
